import Mathlib

/-!
Shallow embedding of src/omnilib/omniproxy.c from HcashOrg/hcwallet.

The source file holds two build variants of the same shim. On Windows it
loads omnicored.dll at runtime, resolves three entry points into global
function-pointer slots (funOmniStart, funJsonCmdReq, funSetCallback) and
forwards calls through them; on other platforms OmniStart and JsonCmdReq
are statically linked and CSetCallback is a stub returning 0.

Modelling choices. C pointers are the type CPtr (NULL or an abstract
address); C function pointers are Lean functions stored in Option, with
none standing for the NULL pointer; the table of global slots is the
structure ProxyState. Each forwarding operation returns the slot table
it leaves behind, its C return value, and the list of calls it made
through external entry points, so that the absence of a call and the
exact pass-through of arguments are observable facts of the embedding.
The 32-bit index of the set-callback operation is modelled as the Nat
bit pattern that the C types int and unsigned int share; the implicit
conversion between them at the forwarding call site preserves that
pattern, so no separate conversion step appears. Values of type int
returned by the operations are modelled as Int so that the sentinel -1
is representable; no arithmetic is ever performed on them.
-/

/-- A C pointer value: either NULL or an abstract nonzero address. -/
inductive CPtr where
  | null : CPtr
  | addr : Nat → CPtr
deriving DecidableEq

/-- A record of one call made through an external entry point, with the
argument values exactly as passed. -/
inductive ExtCall where
  | omniStart : CPtr → CPtr → ExtCall
  | jsonCmdReq : CPtr → ExtCall
  | setCallback : Nat → CPtr → ExtCall
deriving DecidableEq

/-- The table of global entry-point slots of the Windows variant, lines
13-15 of the source: each slot is either unresolved (none, the NULL
function pointer) or bound to an external routine. -/
structure ProxyState where
  funOmniStart : Option (CPtr → CPtr → Int)
  funJsonCmdReq : Option (CPtr → CPtr)
  funSetCallback : Option (Nat → CPtr → Int)

/-- The slot table at program start: all three slots NULL. -/
def initState : ProxyState :=
  { funOmniStart := none, funJsonCmdReq := none, funSetCallback := none }

/-- COmniStart of the Windows variant, lines 45-50: when funOmniStart is
NULL return -1, otherwise forward both arguments and return the result
of the external routine. The first component is the slot table after
the call (the body writes no slot). -/
def COmniStart (st : ProxyState) (pcArgs pcArgs1 : CPtr) :
    ProxyState × Int × List ExtCall :=
  match st.funOmniStart with
  | none => (st, -1, [])
  | some f => (st, f pcArgs pcArgs1, [ExtCall.omniStart pcArgs pcArgs1])

/-- CJsonCmdReq of the Windows variant, lines 52-58: when funJsonCmdReq
is NULL return NULL, otherwise forward the argument and return the
result of the external routine. -/
def CJsonCmdReq (st : ProxyState) (pcReq : CPtr) :
    ProxyState × CPtr × List ExtCall :=
  match st.funJsonCmdReq with
  | none => (st, CPtr.null, [])
  | some f => (st, f pcReq, [ExtCall.jsonCmdReq pcReq])

/-- CSetCallback of the Windows variant, lines 60-65: when funSetCallback
is NULL return -1, when pCallback is NULL return -1, otherwise forward
the index and the pointer and return the result of the external
routine. -/
def CSetCallback (st : ProxyState) (iIndex : Nat) (pCallback : CPtr) :
    ProxyState × Int × List ExtCall :=
  match st.funSetCallback with
  | none => (st, -1, [])
  | some f =>
    if pCallback = CPtr.null then (st, -1, [])
    else (st, f iIndex pCallback, [ExtCall.setCallback iIndex pCallback])

/-- The constant INDEX_CALLBACK_GoJsonCmdReq, line 16 of the source. -/
def INDEX_CALLBACK_GoJsonCmdReq : Nat := 1

/-- Abstract address of the local forwarding function JsonCmdReqOmToHc,
declared in the header, whose pointer is handed to the external module
at registration time. -/
def JsonCmdReqOmToHcPtr : CPtr := CPtr.addr 1

/-- An external module as seen through GetProcAddress: each of the three
expected symbols OmniStart, JsonCmdReq, SetCallback is either absent
(none) or bound to a routine. -/
structure OmniModule where
  omniStart : Option (CPtr → CPtr → Int)
  jsonCmdReq : Option (CPtr → CPtr)
  setCallback : Option (Nat → CPtr → Int)

/-- Model of line 24 of the source, the buffer write that stores 0 one
cell past the first backslash found by strchr: the C string kept in the
buffer is cut just after its first backslash. The value none models the
NULL dereference that occurs when the path holds no backslash at all. -/
def truncAfterFirstBackslash : List Char → Option (List Char)
  | [] => none
  | c :: cs =>
    if c = '\\' then some [c]
    else (truncAfterFirstBackslash cs).map (fun t => c :: t)

/-- Model of strcpy(dst, src), line 25: the C string content of the
buffer becomes exactly src, whatever stood there before. -/
def strcpyModel (_dst src : List Char) : List Char := src

/-- The file name of the external module. -/
def dllName : List Char := "omnicored.dll".toList

/-- The argument that CLoadLibAndInit hands to LoadLibrary, as a function
of the executable path returned by GetModuleFileNameA, lines 22-27 of
the source: cut the path after its first backslash, then strcpy the
fixed module name over the front of the buffer. -/
def loadLibraryArg (exePath : List Char) : Option (List Char) :=
  (truncAfterFirstBackslash exePath).map (fun t => strcpyModel t dllName)

/-- The slot table produced by the three GetProcAddress assignments on
lines 34-36 of the source: each slot receives exactly the address of
the symbol of the same name, or NULL when the symbol is absent. -/
def stateOfModule (m : OmniModule) : ProxyState :=
  { funOmniStart := m.omniStart, funJsonCmdReq := m.jsonCmdReq,
    funSetCallback := m.setCallback }

/-- CLoadLibAndInit of the Windows variant, lines 18-43. The function
loadLibrary models the system resolution of a path to a module (none
when the load fails); exePath models the result of GetModuleFileNameA;
st0 is the slot table before the call. The result is none when the path
computation dereferences NULL, otherwise the slot table after the call
together with the list of calls made through external entry points. On
load failure the slots are returned untouched; on load success all
three slots are overwritten with the GetProcAddress results, and when
the SetCallback symbol resolved, the registration routine is invoked
once with the fixed index and the local forwarding pointer, its return
value discarded. -/
def CLoadLibAndInit (loadLibrary : List Char → Option OmniModule)
    (exePath : List Char) (st0 : ProxyState) :
    Option (ProxyState × List ExtCall) :=
  match loadLibraryArg exePath with
  | none => none
  | some path =>
    match loadLibrary path with
    | none => some (st0, [])
    | some m =>
      match m.setCallback with
      | none => some (stateOfModule m, [])
      | some _ =>
        some (stateOfModule m,
          [ExtCall.setCallback INDEX_CALLBACK_GoJsonCmdReq JsonCmdReqOmToHcPtr])

/-- The statically linked entry points OmniStart and JsonCmdReq that the
non-Windows variant declares extern, lines 68-69 of the source. -/
structure ExternEnv where
  OmniStart : CPtr → CPtr → Int
  JsonCmdReq : CPtr → CPtr

/-- CLoadLibAndInit of the non-Windows variant, lines 70-73: the body
only returns; the empty list records that no external call is made and
no state exists to change. -/
def CLoadLibAndInitNX : List ExtCall := []

/-- COmniStart of the non-Windows variant, lines 74-77: forward both
arguments to the statically linked OmniStart. -/
def COmniStartNX (env : ExternEnv) (pcArgs pcArgs1 : CPtr) :
    Int × List ExtCall :=
  (env.OmniStart pcArgs pcArgs1, [ExtCall.omniStart pcArgs pcArgs1])

/-- CJsonCmdReq of the non-Windows variant, lines 78-81: forward the
argument to the statically linked JsonCmdReq. -/
def CJsonCmdReqNX (env : ExternEnv) (pcReq : CPtr) :
    CPtr × List ExtCall :=
  (env.JsonCmdReq pcReq, [ExtCall.jsonCmdReq pcReq])

/-- CSetCallback of the non-Windows variant, lines 84-87: return 0
without calling anything. -/
def CSetCallbackNX (_iIndex : Nat) (_pCallback : CPtr) :
    Int × List ExtCall :=
  (0, [])

/-- A slot table whose SetCallback slot is resolved to a routine that
returns 7, used to exhibit concrete behaviour of CSetCallback. -/
def setCbOnlyState : ProxyState :=
  { funOmniStart := none, funJsonCmdReq := none,
    funSetCallback := some (fun _ _ => 7) }

/-- A module exposing only the SetCallback symbol, whose routine returns
0, used to exhibit the registration call of CLoadLibAndInit. -/
def setCbOnlyModule : OmniModule :=
  { omniStart := none, jsonCmdReq := none,
    setCallback := some (fun _ _ => 0) }

/-- A module exposing only the JsonCmdReq symbol. -/
def jsonOnlyModule (fJ : CPtr → CPtr) : OmniModule :=
  { omniStart := none, jsonCmdReq := some fJ, setCallback := none }

/-- A concrete executable path for evaluating the loader. -/
def exePathEx : List Char := "C:\\hcwallet\\hcwallet.exe".toList

/-- A concrete start routine returning 5, for witnesses. -/
def fS5 : CPtr → CPtr → Int := fun _ _ => 5

/-- A concrete JSON routine echoing its argument, for witnesses. -/
def jEcho : CPtr → CPtr := fun r => r

/-- A concrete registration routine returning 7, for witnesses. -/
def fC7 : Nat → CPtr → Int := fun _ _ => 7

/-- A slot table with all three slots resolved to the concrete routines
above, used to exhibit forwarding behaviour. -/
def fullState : ProxyState :=
  { funOmniStart := some fS5, funJsonCmdReq := some jEcho,
    funSetCallback := some fC7 }

/-- A concrete static-linkage environment for the non-Windows variant. -/
def envEx : ExternEnv := { OmniStart := fS5, JsonCmdReq := jEcho }

/-- C1: in the Windows variant, whenever the corresponding entry-point
slot is NULL, COmniStart returns -1, CJsonCmdReq returns NULL and
CSetCallback returns -1, each leaving the slots untouched and making no
call through any function-pointer slot; each operation is a total
function, so no fault is raised and the process does not terminate. -/
theorem C1_unresolved_slot_sentinels (st : ProxyState) (a b r p : CPtr) (i : Nat) :
    (st.funOmniStart = none → COmniStart st a b = (st, -1, [])) ∧
    (st.funJsonCmdReq = none → CJsonCmdReq st r = (st, CPtr.null, [])) ∧
    (st.funSetCallback = none → CSetCallback st i p = (st, -1, [])) := by
  refine ⟨fun h => ?_, fun h => ?_, fun h => ?_⟩ <;>
    simp [COmniStart, CJsonCmdReq, CSetCallback, h]

/-- Witness for C1 at the all-NULL slot table and concrete arguments. -/
theorem C1_witness :
    COmniStart initState (CPtr.addr 2) CPtr.null = (initState, -1, []) ∧
    CJsonCmdReq initState (CPtr.addr 3) = (initState, CPtr.null, []) ∧
    CSetCallback initState 1 (CPtr.addr 4) = (initState, -1, []) :=
  ⟨(C1_unresolved_slot_sentinels initState (CPtr.addr 2) CPtr.null (CPtr.addr 3) (CPtr.addr 4) 1).1 rfl,
   (C1_unresolved_slot_sentinels initState (CPtr.addr 2) CPtr.null (CPtr.addr 3) (CPtr.addr 4) 1).2.1 rfl,
   (C1_unresolved_slot_sentinels initState (CPtr.addr 2) CPtr.null (CPtr.addr 3) (CPtr.addr 4) 1).2.2 rfl⟩

/-- C2 counterexample: in the non-Windows variant CSetCallback applied to
a NULL callback pointer returns 0, which is not the failure sentinel -1,
so the claim that every build variant returns a failure sentinel on a
NULL callback is false. -/
theorem C2_cex :
    CSetCallbackNX 1 CPtr.null = (0, []) ∧ (0 : Int) ≠ -1 :=
  ⟨rfl, by decide⟩

/-- C2 amended: in the Windows variant CSetCallback with a NULL callback
pointer returns -1 and makes no external call, for every index and every
slot table; in the non-Windows variant it returns 0 and makes no
external call. -/
theorem C2_null_callback (st : ProxyState) (i j : Nat) :
    CSetCallback st i CPtr.null = (st, -1, []) ∧
    CSetCallbackNX j CPtr.null = (0, []) := by
  refine ⟨?_, rfl⟩
  cases h : st.funSetCallback <;> simp [CSetCallback, h]

/-- C8: every forwarding operation of the Windows variant leaves the
three entry-point slots exactly as it found them; only CLoadLibAndInit
writes them, so a resolved slot never reverts under forwarding calls. -/
theorem C8_slots_frame (st : ProxyState) (a b r p : CPtr) (i : Nat) :
    (COmniStart st a b).1 = st ∧
    (CJsonCmdReq st r).1 = st ∧
    (CSetCallback st i p).1 = st := by
  refine ⟨?_, ?_, ?_⟩
  · cases h : st.funOmniStart <;> simp [COmniStart, h]
  · cases h : st.funJsonCmdReq <;> simp [CJsonCmdReq, h]
  · cases h : st.funSetCallback <;> simp [CSetCallback, h]
    split <;> simp

/-- C9: in the non-Windows variant, CSetCallback returns 0 for every
index and every callback pointer, NULL included, and invokes no external
routine; CLoadLibAndInit performs no action. -/
theorem C9_nonwindows_noop :
    (∀ (i : Nat) (p : CPtr), CSetCallbackNX i p = (0, [])) ∧
    CLoadLibAndInitNX = [] :=
  ⟨fun _ _ => rfl, rfl⟩

/-- C3 counterexample: with the SetCallback slot resolved and a NULL
callback argument, CSetCallback makes no call through the resolved entry
point (the call list is empty) and returns the sentinel -1 rather than
the result 7 of the entry point, so the claim that every input with a
resolved slot is forwarded exactly once is false. -/
theorem C3_cex :
    setCbOnlyState.funSetCallback.isSome = true ∧
    CSetCallback setCbOnlyState 1 CPtr.null = (setCbOnlyState, -1, []) ∧
    (-1 : Int) ≠ 7 := by
  refine ⟨rfl, ?_, by decide⟩
  simp [CSetCallback, setCbOnlyState]

/-- C3 amended: whenever the corresponding entry point is resolved, each
forwarding operation calls it exactly once with its own arguments passed
through unchanged and returns the result of that call unchanged, with no
transformation or validation, except that CSetCallback additionally
requires its callback pointer to be non-NULL before forwarding; the
non-Windows COmniStart and CJsonCmdReq forward unconditionally to the
statically linked entry points. -/
theorem C3_passthrough (st : ProxyState) (env : ExternEnv) (a b r p : CPtr) (i : Nat)
    (fS : CPtr → CPtr → Int) (fJ : CPtr → CPtr) (fC : Nat → CPtr → Int) :
    (st.funOmniStart = some fS →
      COmniStart st a b = (st, fS a b, [ExtCall.omniStart a b])) ∧
    (st.funJsonCmdReq = some fJ →
      CJsonCmdReq st r = (st, fJ r, [ExtCall.jsonCmdReq r])) ∧
    (st.funSetCallback = some fC → p ≠ CPtr.null →
      CSetCallback st i p = (st, fC i p, [ExtCall.setCallback i p])) ∧
    COmniStartNX env a b = (env.OmniStart a b, [ExtCall.omniStart a b]) ∧
    CJsonCmdReqNX env r = (env.JsonCmdReq r, [ExtCall.jsonCmdReq r]) := by
  refine ⟨fun h => ?_, fun h => ?_, fun h hp => ?_, rfl, rfl⟩ <;>
    simp [COmniStart, CJsonCmdReq, CSetCallback, h]
  simp [hp]

/-- Witness for C3 at concrete resolved slots, concrete entry points and
concrete arguments. -/
theorem C3_witness :
    COmniStart fullState (CPtr.addr 2) CPtr.null =
      (fullState, fS5 (CPtr.addr 2) CPtr.null,
       [ExtCall.omniStart (CPtr.addr 2) CPtr.null]) ∧
    CJsonCmdReq fullState (CPtr.addr 3) =
      (fullState, jEcho (CPtr.addr 3), [ExtCall.jsonCmdReq (CPtr.addr 3)]) ∧
    CSetCallback fullState 1 (CPtr.addr 9) =
      (fullState, fC7 1 (CPtr.addr 9), [ExtCall.setCallback 1 (CPtr.addr 9)]) :=
  ⟨(C3_passthrough fullState envEx (CPtr.addr 2) CPtr.null (CPtr.addr 3)
      (CPtr.addr 9) 1 fS5 jEcho fC7).1 rfl,
   (C3_passthrough fullState envEx (CPtr.addr 2) CPtr.null (CPtr.addr 3)
      (CPtr.addr 9) 1 fS5 jEcho fC7).2.1 rfl,
   (C3_passthrough fullState envEx (CPtr.addr 2) CPtr.null (CPtr.addr 3)
      (CPtr.addr 9) 1 fS5 jEcho fC7).2.2.1 rfl (by decide)⟩

/-- Helper: a path holding a backslash makes the truncation succeed. -/
theorem truncAfterFirstBackslash_isSome {l : List Char} (h : '\\' ∈ l) :
    (truncAfterFirstBackslash l).isSome = true := by
  induction l with
  | nil => simp at h
  | cons c cs ih =>
    by_cases hc : c = '\\'
    · simp [truncAfterFirstBackslash, hc]
    · have h' : '\\' ∈ cs := by
        rcases List.mem_cons.mp h with h1 | h1
        · exact absurd h1.symm hc
        · exact h1
      simpa [truncAfterFirstBackslash, hc] using ih h'

/-- C4 counterexample: at the executable path C:\hcwallet\hcwallet.exe
the argument handed to LoadLibrary is the bare module name
omnicored.dll, not the executable directory followed by the module
name, because the strcpy on line 25 overwrites the buffer from its
front instead of appending. -/
theorem C4_cex :
    loadLibraryArg exePathEx = some ("omnicored.dll".toList) ∧
    loadLibraryArg exePathEx ≠ some ("C:\\hcwallet\\omnicored.dll".toList) := by
  constructor
  · rfl
  · intro h
    simp [exePathEx, loadLibraryArg, truncAfterFirstBackslash, strcpyModel, dllName] at h

/-- C4 amended: for every executable path holding at least one backslash
(GetModuleFileNameA yields an absolute path, and a path with no
backslash would make line 24 dereference NULL), the argument handed to
LoadLibrary is exactly the fixed name omnicored.dll: the truncation of
the path after its first backslash is dead, since the strcpy on line 25
replaces the whole buffer content with the module file name. -/
theorem C4_loadlib_arg (exePath : List Char) (h : '\\' ∈ exePath) :
    loadLibraryArg exePath = some ("omnicored.dll".toList) := by
  have hs := truncAfterFirstBackslash_isSome h
  rcases Option.isSome_iff_exists.mp hs with ⟨t, ht⟩
  simp [loadLibraryArg, ht, strcpyModel, dllName]

/-- Witness for C4 at the concrete executable path. -/
theorem C4_witness :
    loadLibraryArg exePathEx = some ("omnicored.dll".toList) :=
  C4_loadlib_arg exePathEx (by decide)

/-- C5: in the Windows variant, when the load succeeds and the module
exposes the SetCallback symbol, CLoadLibAndInit makes exactly one
registration call, with index 1 (INDEX_CALLBACK_GoJsonCmdReq) and the
pointer of the local forwarding function JsonCmdReqOmToHc; when the
symbol is absent, no external call is made at all. -/
theorem C5_registration (L : List Char → Option OmniModule)
    (exePath path : List Char) (st0 : ProxyState) (m : OmniModule)
    (hp : loadLibraryArg exePath = some path) (hm : L path = some m) :
    (m.setCallback.isSome = true →
      CLoadLibAndInit L exePath st0 =
        some (stateOfModule m,
              [ExtCall.setCallback INDEX_CALLBACK_GoJsonCmdReq JsonCmdReqOmToHcPtr])) ∧
    (m.setCallback = none →
      CLoadLibAndInit L exePath st0 = some (stateOfModule m, [])) := by
  constructor
  · intro hf
    rcases Option.isSome_iff_exists.mp hf with ⟨f, hfe⟩
    simp [CLoadLibAndInit, hp, hm, hfe]
  · intro hf
    simp [CLoadLibAndInit, hp, hm, hf]

/-- Witness for C5: loading a module that exposes only SetCallback from
the concrete executable path triggers the single registration call. -/
theorem C5_witness :
    CLoadLibAndInit (fun _ => some setCbOnlyModule) exePathEx initState =
      some (stateOfModule setCbOnlyModule,
            [ExtCall.setCallback INDEX_CALLBACK_GoJsonCmdReq JsonCmdReqOmToHcPtr]) :=
  (C5_registration (fun _ => some setCbOnlyModule) exePathEx
      ("omnicored.dll".toList) initState setCbOnlyModule rfl rfl).1 rfl

/-- C6: in the Windows variant, when the load fails, CLoadLibAndInit
returns normally with no error channel, leaves the slot table exactly
as it was (so starting from the all-NULL table all three slots stay
NULL), makes no external call, and every subsequent forwarding
operation on the all-NULL table returns its failure sentinel. -/
theorem C6_silent_failure (L : List Char → Option OmniModule)
    (exePath path : List Char) (st0 : ProxyState)
    (hp : loadLibraryArg exePath = some path) (hm : L path = none) :
    CLoadLibAndInit L exePath st0 = some (st0, []) ∧
    (∀ a b, COmniStart initState a b = (initState, -1, [])) ∧
    (∀ r, CJsonCmdReq initState r = (initState, CPtr.null, [])) ∧
    (∀ i p, CSetCallback initState i p = (initState, -1, [])) := by
  refine ⟨?_, fun a b => ?_, fun r => ?_, fun i p => ?_⟩
  · simp [CLoadLibAndInit, hp, hm]
  · simp [COmniStart, initState]
  · simp [CJsonCmdReq, initState]
  · simp [CSetCallback, initState]

/-- Witness for C6: a system with no module at any path leaves the
all-NULL table untouched. -/
theorem C6_witness :
    CLoadLibAndInit (fun _ => none) exePathEx initState = some (initState, []) ∧
    COmniStart initState CPtr.null CPtr.null = (initState, -1, []) :=
  ⟨(C6_silent_failure (fun _ => none) exePathEx ("omnicored.dll".toList)
      initState rfl rfl).1,
   (C6_silent_failure (fun _ => none) exePathEx ("omnicored.dll".toList)
      initState rfl rfl).2.1 CPtr.null CPtr.null⟩

/-- C7: in the Windows variant the three symbols resolve independently:
on a successful load the slot table becomes exactly the module's symbol
table, present symbols bound and absent ones NULL, with no aggregate
failure; in particular, for a module exposing only JsonCmdReq, the JSON
forwarding succeeds while COmniStart and CSetCallback return their
failure sentinels. -/
theorem C7_independent_resolution (L : List Char → Option OmniModule)
    (exePath path : List Char) (st0 : ProxyState) (m : OmniModule)
    (fJ : CPtr → CPtr) (a b r p : CPtr) (i : Nat)
    (hp : loadLibraryArg exePath = some path) (hm : L path = some m) :
    (∃ tr, CLoadLibAndInit L exePath st0 = some (stateOfModule m, tr)) ∧
    (m = jsonOnlyModule fJ →
      CLoadLibAndInit L exePath st0 = some (stateOfModule (jsonOnlyModule fJ), []) ∧
      CJsonCmdReq (stateOfModule (jsonOnlyModule fJ)) r =
        (stateOfModule (jsonOnlyModule fJ), fJ r, [ExtCall.jsonCmdReq r]) ∧
      COmniStart (stateOfModule (jsonOnlyModule fJ)) a b =
        (stateOfModule (jsonOnlyModule fJ), -1, []) ∧
      CSetCallback (stateOfModule (jsonOnlyModule fJ)) i p =
        (stateOfModule (jsonOnlyModule fJ), -1, [])) := by
  constructor
  · cases hf : m.setCallback with
    | none => exact ⟨[], by simp [CLoadLibAndInit, hp, hm, hf]⟩
    | some f =>
      exact ⟨[ExtCall.setCallback INDEX_CALLBACK_GoJsonCmdReq JsonCmdReqOmToHcPtr],
        by simp [CLoadLibAndInit, hp, hm, hf]⟩
  · intro hme
    subst hme
    refine ⟨by simp [CLoadLibAndInit, hp, hm, jsonOnlyModule], ?_, ?_, ?_⟩
    · simp [CJsonCmdReq, stateOfModule, jsonOnlyModule]
    · simp [COmniStart, stateOfModule, jsonOnlyModule]
    · simp [CSetCallback, stateOfModule, jsonOnlyModule]

/-- Witness for C7: loading the module that exposes only JsonCmdReq. -/
theorem C7_witness :
    CLoadLibAndInit (fun _ => some (jsonOnlyModule jEcho)) exePathEx initState =
      some (stateOfModule (jsonOnlyModule jEcho), []) ∧
    CJsonCmdReq (stateOfModule (jsonOnlyModule jEcho)) (CPtr.addr 3) =
      (stateOfModule (jsonOnlyModule jEcho), jEcho (CPtr.addr 3),
       [ExtCall.jsonCmdReq (CPtr.addr 3)]) :=
  ⟨((C7_independent_resolution (fun _ => some (jsonOnlyModule jEcho)) exePathEx
      ("omnicored.dll".toList) initState (jsonOnlyModule jEcho) jEcho
      CPtr.null CPtr.null (CPtr.addr 3) (CPtr.addr 4) 1 rfl rfl).2 rfl).1,
   ((C7_independent_resolution (fun _ => some (jsonOnlyModule jEcho)) exePathEx
      ("omnicored.dll".toList) initState (jsonOnlyModule jEcho) jEcho
      CPtr.null CPtr.null (CPtr.addr 3) (CPtr.addr 4) 1 rfl rfl).2 rfl).2.1⟩

/-- C10: neither COmniStart nor CJsonCmdReq inspects its string-pointer
arguments in either variant: a NULL string is forwarded unchanged to the
external entry point whenever the corresponding slot is resolved, and
statically in the non-Windows variant; only CSetCallback rejects a NULL
pointer argument, returning -1 without calling even when its slot is
resolved. -/
theorem C10_no_string_validation (st : ProxyState) (env : ExternEnv) (i : Nat)
    (fS : CPtr → CPtr → Int) (fJ : CPtr → CPtr) (fC : Nat → CPtr → Int) :
    (st.funOmniStart = some fS →
      COmniStart st CPtr.null CPtr.null =
        (st, fS CPtr.null CPtr.null, [ExtCall.omniStart CPtr.null CPtr.null])) ∧
    (st.funJsonCmdReq = some fJ →
      CJsonCmdReq st CPtr.null =
        (st, fJ CPtr.null, [ExtCall.jsonCmdReq CPtr.null])) ∧
    COmniStartNX env CPtr.null CPtr.null =
      (env.OmniStart CPtr.null CPtr.null, [ExtCall.omniStart CPtr.null CPtr.null]) ∧
    CJsonCmdReqNX env CPtr.null =
      (env.JsonCmdReq CPtr.null, [ExtCall.jsonCmdReq CPtr.null]) ∧
    (st.funSetCallback = some fC →
      CSetCallback st i CPtr.null = (st, -1, [])) := by
  refine ⟨fun h => ?_, fun h => ?_, rfl, rfl, fun h => ?_⟩ <;>
    simp [COmniStart, CJsonCmdReq, CSetCallback, h]

/-- Witness for C10 at the fully resolved slot table: NULL strings pass
through, the NULL callback pointer is rejected. -/
theorem C10_witness :
    COmniStart fullState CPtr.null CPtr.null =
      (fullState, fS5 CPtr.null CPtr.null,
       [ExtCall.omniStart CPtr.null CPtr.null]) ∧
    CJsonCmdReq fullState CPtr.null =
      (fullState, jEcho CPtr.null, [ExtCall.jsonCmdReq CPtr.null]) ∧
    CSetCallback fullState 1 CPtr.null = (fullState, -1, []) :=
  ⟨(C10_no_string_validation fullState envEx 1 fS5 jEcho fC7).1 rfl,
   (C10_no_string_validation fullState envEx 1 fS5 jEcho fC7).2.1 rfl,
   (C10_no_string_validation fullState envEx 1 fS5 jEcho fC7).2.2.2.2 rfl⟩
